import Mathlib

/-!
Verification of the live-match roster / event-ledger / aggregation core of the
RugbyTrackPro repository, shallowly embedded from the TypeScript source:
`MemStorage` (server storage), the Express routes, the `TimerDisplay` clock
component, and the `useGameStore` aggregation logic.

Conventions of the embedding:
* JavaScript `Map<number, T>` stores (insertion-ordered, keyed by an
  incrementing id counter) are modelled as `List T` in insertion order;
  `Array.from(map.values())` is the list itself, `map.set` on a fresh id is
  `++ [x]`, and `map.set` on an existing id replaces that element in place.
* `null`/`undefined` number fields are `Option Int`; the JavaScript truthiness
  test `!x` on such a field is `jsFalsy` below (true for null/undefined AND
  for 0 -- the source uses `!gp.endTime`, which treats an end time of 0 the
  same as no end time).
* Fields that the schema declares with a default but that every recording
  code path supplies explicitly (`value`, `gameTime`, `period` on a stat) are
  modelled as required fields.
-/

/-- JavaScript falsiness of a nullable number: `!x` is true when `x` is
`null`/`undefined` or `0`.  Models the `!gp.endTime` tests in
`MemStorage.substitutePlayer` and the client's active-player filter. -/
def jsFalsy : Option Int → Bool
  | none => true
  | some v => v == 0

/-- A game row (shared/schema.ts `games` table / client `Game` type). -/
structure Game where
  id : Nat
  teamId : Nat
  fixtureId : Option Nat
  opponent : String
  date : Int
  location : String
  halfLength : Int
  numberOfHalves : Int
  homeScore : Int
  awayScore : Int
  isCompleted : Bool
  playerOfMatchId : Option Nat
  playerOfMatchComment : Option String
deriving Repr, DecidableEq

/-- A roster entry (shared/schema.ts `gamePlayers` table): a player's occupancy
of a shirt number during a time window of a game.  `endTime = none` means the
player has not exited. -/
structure GamePlayer where
  id : Nat
  gameId : Nat
  playerId : Nat
  number : Int
  position : String
  isStarter : Bool
  startTime : Option Int
  endTime : Option Int
deriving Repr, DecidableEq

/-- The insert shape for a roster entry (`InsertGamePlayer`): everything but
the server-assigned id. -/
structure InsertGamePlayer where
  gameId : Nat
  playerId : Nat
  number : Int
  position : String
  isStarter : Bool
  startTime : Option Int
  endTime : Option Int
deriving Repr, DecidableEq

/-- A recorded stat event (shared/schema.ts `stats` table). -/
structure Stat where
  id : Nat
  gameId : Nat
  playerId : Nat
  statType : String
  value : Int
  gameTime : Int
  period : Nat
deriving Repr, DecidableEq

/-- The insert shape for a stat (`InsertStat`): everything but the id. -/
structure InsertStat where
  gameId : Nat
  playerId : Nat
  statType : String
  value : Int
  gameTime : Int
  period : Nat
deriving Repr, DecidableEq

/-- The slice of `MemStorage` state the claims concern: the `games`,
`gamePlayers` and `stats` maps (insertion-ordered lists) and their id
counters. -/
structure Storage where
  games : List Game
  gamePlayers : List GamePlayer
  stats : List Stat
  currentGameId : Nat
  currentGamePlayerId : Nat
  currentStatId : Nat
deriving Repr, DecidableEq

/-- Attach a server id to an insert (`const gamePlayer = { ...insert, id }`). -/
def mkGamePlayer (id : Nat) (ins : InsertGamePlayer) : GamePlayer :=
  ⟨id, ins.gameId, ins.playerId, ins.number, ins.position, ins.isStarter,
    ins.startTime, ins.endTime⟩

/-- Attach a server id to a stat insert. -/
def mkStat (id : Nat) (ins : InsertStat) : Stat :=
  ⟨id, ins.gameId, ins.playerId, ins.statType, ins.value, ins.gameTime,
    ins.period⟩

/-- Model of `MemStorage.createGamePlayer`: assign the next id, store, return the
record.  No validation of any kind is performed. -/
def createGamePlayer (s : Storage) (ins : InsertGamePlayer) :
    GamePlayer × Storage :=
  let gp := mkGamePlayer s.currentGamePlayerId ins
  (gp, { s with gamePlayers := s.gamePlayers ++ [gp],
                currentGamePlayerId := s.currentGamePlayerId + 1 })

/-- Model of `MemStorage.createStat`: assign the next id, store, return the record.
No roster-activity or value check is performed. -/
def createStat (s : Storage) (ins : InsertStat) : Stat × Storage :=
  let st := mkStat s.currentStatId ins
  (st, { s with stats := s.stats ++ [st],
                currentStatId := s.currentStatId + 1 })

/-- Model of `MemStorage.getGamePlayers`: the roster entries of one game. -/
def getGamePlayers (s : Storage) (gameId : Nat) : List GamePlayer :=
  s.gamePlayers.filter (fun gp => gp.gameId == gameId)

/-- Model of `MemStorage.getGameStats`: the stat events of one game. -/
def getGameStats (s : Storage) (gameId : Nat) : List Stat :=
  s.stats.filter (fun st => st.gameId == gameId)

/-- The client's active-player list (active-game.tsx line 66):
`gamePlayers.filter(player => !player.endTime)` over the game's roster. -/
def activePlayers (s : Storage) (gameId : Nat) : List GamePlayer :=
  (getGamePlayers s gameId).filter (fun gp => jsFalsy gp.endTime)

/-- Replace the first list element satisfying `p` with the same record whose
`endTime` is set to `t`.  Models the in-place mutation
`outPlayerRecord.endTime = time; gamePlayers.set(outPlayerRecord.id, ...)` in
`MemStorage.substitutePlayer`: ids are unique by construction, so the
`Map.set` on an existing key replaces exactly the found record, preserving
insertion order. -/
def setEndTimeFirst (p : GamePlayer → Bool) (t : Int) :
    List GamePlayer → List GamePlayer
  | [] => []
  | gp :: rest =>
      if p gp then { gp with endTime := some t } :: rest
      else gp :: setEndTimeFirst p t rest

/-- Model of `MemStorage.substitutePlayer`: find the first roster entry of `outP` in
`gameId` whose `endTime` is falsy; if none, fail (return `false`, state
untouched); otherwise set its `endTime := time` and create an entry for
`inP` inheriting shirt number and position, `isStarter := false`,
`startTime := time`, `endTime := null`. -/
def substitutePlayer (s : Storage) (gameId outP inP : Nat) (time : Int) :
    Bool × Storage :=
  let isOut := fun gp : GamePlayer =>
    gp.gameId == gameId && gp.playerId == outP && jsFalsy gp.endTime
  match s.gamePlayers.find? isOut with
  | none => (false, s)
  | some outRecord =>
      let s1 : Storage :=
        { s with gamePlayers := setEndTimeFirst isOut time s.gamePlayers }
      let ins : InsertGamePlayer :=
        ⟨gameId, inP, outRecord.number, outRecord.position, false,
          some time, none⟩
      (true, (createGamePlayer s1 ins).2)

/-- Model of `MemStorage.completeGame`: if the game exists, overwrite its scores, set
`isCompleted`, and store `playerOfMatchId || null` and
`playerOfMatchComment || null` (JavaScript `||`: an omitted or `0` id and an
omitted or empty comment both become `null`); otherwise return `undefined`
and change nothing. -/
def completeGame (s : Storage) (id : Nat) (homeScore awayScore : Int)
    (playerOfMatchId : Option Nat) (playerOfMatchComment : Option String) :
    Option Game × Storage :=
  match s.games.find? (fun g => g.id == id) with
  | none => (none, s)
  | some g =>
      let g' : Game :=
        { g with
          homeScore := homeScore
          awayScore := awayScore
          isCompleted := true
          playerOfMatchId :=
            match playerOfMatchId with
            | none => none
            | some v => if v == 0 then none else some v
          playerOfMatchComment :=
            match playerOfMatchComment with
            | none => none
            | some c => if c == "" then none else some c }
      (some g',
        { s with games := s.games.map (fun x => if x.id == id then g' else x) })

/-- The client's lineup assignment (part_005 `savePlayersMutation`): one
`POST /games/:id/players` call -- i.e. one `createGamePlayer` -- per entry, in
order.  This is the repository's `assignStartingLineup`. -/
def assignLineup (s : Storage) (entries : List InsertGamePlayer) : Storage :=
  entries.foldl (fun st e => (createGamePlayer st e).2) s

/-- A storage state with no games, roster entries or stats (a fresh
`MemStorage`, projected to the slice modelled here). -/
def emptyStorage : Storage := ⟨[], [], [], 1, 1, 1⟩

/-- The client timer state (`TimerState` in client types): `currentTime` is
the seconds remaining in the current half, `halfLength` is in minutes. -/
structure TimerState where
  isRunning : Bool
  currentHalf : Nat
  currentTime : Int
  halfLength : Int
  numberOfHalves : Nat
deriving Repr, DecidableEq

/-- One clock tick of `TimerDisplay` (part_004 lines 43-74): the interval
fires only while `isRunning`, setting
`currentTime := Math.max(0, currentTime - 1)`; the follow-up effect then, if
`currentTime <= 0 && isRunning`, sets `isRunning := false` -- the "half
finished" event (returned here as the Bool; on the final half the component
additionally invokes `onGameEnd`).  The period is never advanced by a tick
(only the user-driven next-half button advances it). -/
def tick (s : TimerState) : TimerState × Bool :=
  if s.isRunning then
    let newTime := max 0 (s.currentTime - 1)
    let s1 : TimerState := { s with currentTime := newTime }
    if newTime ≤ 0 then ({ s1 with isRunning := false }, true)
    else (s1, false)
  else (s, false)

/-- The state after `n` ticks. -/
def tickN (s : TimerState) : Nat → TimerState
  | 0 => s
  | n + 1 => (tick (tickN s n)).1

/-- Whether the `i`-th tick (1-based) raises the "half finished" event. -/
def expiredOnTick (s : TimerState) (i : Nat) : Bool :=
  (tick (tickN s (i - 1))).2

/-- The stat payload built by `useGameStore.recordStat` (part_005 lines
179-189) and identically by `handleStatClick` (active-game.tsx lines 164-172):
`gameTime := halfLength * 60 - currentTime`, `period := currentHalf`. -/
def recordStat (gameId playerId : Nat) (statType : String) (value : Int)
    (timer : TimerState) : InsertStat :=
  ⟨gameId, playerId, statType, value,
    timer.halfLength * 60 - timer.currentTime, timer.currentHalf⟩

/-- One step of the aggregation fold: the client code
`if (!gameStats[pid][type]) gameStats[pid][type] = 0;
gameStats[pid][type] += value` (an absent or falsy entry reads as 0). -/
def bumpStat (gs : Nat → String → Int) (pid : Nat) (st : String) (v : Int) :
    Nat → String → Int :=
  fun p t => if pid = p ∧ st = t then gs p t + v else gs p t

/-- The pure recomputation of per-player totals from the raw event list
(`useGameStore.loadGameData`, part_005 lines 242-252); the incremental update
performed by `recordStat` on success (lines 197-223) is `bumpStat` with the
new event. -/
def loadGameStats (stats : List Stat) : Nat → String → Int :=
  stats.foldl (fun gs st => bumpStat gs st.playerId st.statType st.value)
    (fun _ _ => 0)

/-- Specification-side definition (spec section 4.3): `playerId` has an
active roster entry at elapsed time `t` -- an entry with
`enteredAtSeconds ≤ t` and, if exited, `exitedAtSeconds > t` (an entry
created without a start time counts as entered at 0, the value the spec
assigns to lineup entries). -/
def specActiveAt (s : Storage) (gameId playerId : Nat) (t : Int) : Bool :=
  s.gamePlayers.any fun gp =>
    gp.gameId == gameId && gp.playerId == playerId &&
      gp.startTime.getD 0 ≤ t &&
      (match gp.endTime with
       | none => true
       | some e => t < e)

/-- Specification-side definition (spec section 4.4): `playerTotals` as the
sum of `value` over the events of one player and stat type. -/
def specPlayerTotals (stats : List Stat) (p : Nat) (t : String) : Int :=
  ((stats.filter (fun s => s.playerId == p && s.statType == t)).map
    (fun s => s.value)).sum

/-- Specification-side definition (spec section 4.1): the canonical elapsed
time, `(currentPeriod - 1) * periodLengthSeconds +
(periodLengthSeconds - secondsRemaining)`. -/
def specCanonicalElapsed (period : Nat) (periodLength secondsRemaining : Int) :
    Int :=
  ((period : Int) - 1) * periodLength + (periodLength - secondsRemaining)

/-- Specification-side definition (spec section 4.4): the event-derived
score, `5*count(Try) + 2*count(Conversion) + 2*count(PenaltyGoal) +
1*count(FieldGoal)`, using the scoring stat type names the repository
configures ("Try", "Conversion", "Penalty Goal", "Field Goal"). -/
def specDerivedScore (stats : List Stat) : Int :=
  5 * ((stats.filter (fun s => s.statType == "Try")).length : Int) +
  2 * ((stats.filter (fun s => s.statType == "Conversion")).length : Int) +
  2 * ((stats.filter (fun s => s.statType == "Penalty Goal")).length : Int) +
  1 * ((stats.filter (fun s => s.statType == "Field Goal")).length : Int)

/-- The number of active roster entries of game `g` wearing shirt `n`. -/
def countActive (s : Storage) (g : Nat) (n : Int) : Nat :=
  ((activePlayers s g).filter (fun gp => gp.number == n)).length

/-- The shirt-number invariant of spec section 3: at most one active roster
entry per (game, shirt number). -/
def ShirtInvariant (s : Storage) : Prop :=
  ∀ g n, countActive s g n ≤ 1

/-- Fixture: a game used by the concrete scenarios. -/
def gFix : Game :=
  ⟨1, 1, none, "Rivals", 0, "Home", 40, 2, 0, 0, false, none, none⟩

/-- Fixture: a starter on shirt 7 of game 1, entered at 0, not exited. -/
def gpFix : GamePlayer := ⟨1, 1, 10, 7, "Hooker", true, some 0, none⟩

/-- Fixture: a storage with one game and no roster entries or stats. -/
def sNoRoster : Storage := ⟨[gFix], [], [], 2, 1, 1⟩

/-- Fixture: a storage whose roster is exactly `gpFix`. -/
def sOneActive : Storage := ⟨[gFix], [gpFix], [], 2, 2, 1⟩

/-- Fixture: a stat insert against a player with no roster entry. -/
def insStatFix : InsertStat := ⟨1, 5, "Tackles", 1, 100, 1⟩

/-- Fixture: a stat insert with a non-positive value. -/
def insStatZero : InsertStat := ⟨1, 5, "Tackles", 0, 100, 1⟩

/-- Fixture: two lineup entries sharing shirt number 7. -/
def insShirtA : InsertGamePlayer := ⟨1, 10, 7, "Prop", true, none, none⟩

/-- Fixture: second lineup entry on shirt 7, for a different player. -/
def insShirtB : InsertGamePlayer := ⟨1, 11, 7, "Hooker", true, none, none⟩

/-- Claim C1, counterexample: player 5 has no roster entry at all in
`sNoRoster` (so no active entry at elapsed 100), yet `createStat` appends the
event to the ledger instead of failing. -/
theorem C1_createStat_ignores_roster_cex :
    specActiveAt sNoRoster insStatFix.gameId insStatFix.playerId
      insStatFix.gameTime = false ∧
    ¬ ((createStat sNoRoster insStatFix).2.stats = sNoRoster.stats) := by
  decide

/-- Claim C1 (amended): `createStat` -- the whole server-side handling of
`POST /stats` beyond schema typing -- performs no roster check: even when the
player has no active roster entry at the event's time, the stat is assigned
the next id, appended to the ledger, and returned. -/
theorem C1_createStat_appends_unconditionally :
    ∀ (s : Storage) (ins : InsertStat),
      specActiveAt s ins.gameId ins.playerId ins.gameTime = false →
        createStat s ins =
          (mkStat s.currentStatId ins,
           { s with stats := s.stats ++ [mkStat s.currentStatId ins],
                    currentStatId := s.currentStatId + 1 }) := by
  intro s ins _
  rfl

/-- Claim C1 witness: the amended theorem applied at the concrete fixture. -/
theorem C1_createStat_appends_witness :
    createStat sNoRoster insStatFix =
      (mkStat sNoRoster.currentStatId insStatFix,
       { sNoRoster with
           stats := sNoRoster.stats ++ [mkStat sNoRoster.currentStatId insStatFix],
           currentStatId := sNoRoster.currentStatId + 1 }) :=
  C1_createStat_appends_unconditionally sNoRoster insStatFix (by decide)

/-- Claim C2, failing input: substituting player 20 for the active player 10
at `time = 0` succeeds, but the outgoing record gets `endTime = 0`, which the
`!endTime` filters still treat as active -- so player 10 remains in
`activePlayers` and shirt 7 now has two active occupants. -/
theorem C2_substitute_zero_time_bug :
    (substitutePlayer sOneActive 1 10 20 0).1 = true ∧
    ((activePlayers (substitutePlayer sOneActive 1 10 20 0).2 1).filter
        (fun gp => gp.playerId == 10)).length = 1 ∧
    ((activePlayers (substitutePlayer sOneActive 1 10 20 0).2 1).filter
        (fun gp => gp.number == 7)).length = 2 := by
  decide

/-- Claim C5, counterexample: in period 2 (40-minute halves, one second
played), the recorded `gameTime` is 1, while the canonical elapsed time is
2401 -- the stored timestamp omits the `(period - 1) * periodLength`
offset. -/
theorem C5_gameTime_not_canonical_cex :
    (recordStat 1 5 "Tackles" 1 ⟨true, 2, 2399, 40, 2⟩).gameTime = 1 ∧
    specCanonicalElapsed 2 (40 * 60) 2399 = 2401 ∧
    ¬ ((recordStat 1 5 "Tackles" 1 ⟨true, 2, 2399, 40, 2⟩).gameTime =
        specCanonicalElapsed 2 (40 * 60) 2399) := by
  decide

/-- Claim C5 (amended): the stored timestamp is the elapsed time within the
current period only, `periodLengthSeconds - secondsRemaining` (the period
index is stored separately in the event's `period` field); it coincides with
the canonical `(p-1)*L + (L-s)` exactly in period 1. -/
theorem C5_gameTime_within_period :
    ∀ (gameId playerId : Nat) (statType : String) (value : Int)
      (tmr : TimerState),
      (recordStat gameId playerId statType value tmr).gameTime =
        tmr.halfLength * 60 - tmr.currentTime ∧
      (recordStat gameId playerId statType value tmr).period =
        tmr.currentHalf ∧
      (tmr.currentHalf = 1 →
        (recordStat gameId playerId statType value tmr).gameTime =
          specCanonicalElapsed tmr.currentHalf (tmr.halfLength * 60)
            tmr.currentTime) := by
  intro g p st v tmr
  refine ⟨rfl, rfl, fun h => ?_⟩
  simp only [recordStat, specCanonicalElapsed, h]
  ring

/-- Claim C5 witness: in period 1 the stored timestamp is canonical. -/
theorem C5_gameTime_witness :
    (recordStat 1 5 "Tackles" 1 ⟨true, 1, 2000, 40, 2⟩).gameTime =
      specCanonicalElapsed 1 (40 * 60) 2000 :=
  (C5_gameTime_within_period 1 5 "Tackles" 1 ⟨true, 1, 2000, 40, 2⟩).2.2 rfl

/-- Claim C9, counterexample: a stat with value 0 (< 1) is accepted and
stored -- nothing in the zod insert schema or `createStat` bounds the
value. -/
theorem C9_nonpositive_value_stored_cex :
    insStatZero.value < 1 ∧
    (createStat sNoRoster insStatZero).1.value = 0 ∧
    (createStat sNoRoster insStatZero).1 ∈
      (createStat sNoRoster insStatZero).2.stats := by
  refine ⟨by decide, by decide, ?_⟩
  simp [createStat]

/-- Claim C9 (amended): `createStat` stores whatever integer value the caller
supplies, unvalidated; the stored event carries that exact value. -/
theorem C9_value_stored_unchanged :
    ∀ (s : Storage) (ins : InsertStat),
      (createStat s ins).1.value = ins.value ∧
      (createStat s ins).1 ∈ (createStat s ins).2.stats := by
  intro s ins
  exact ⟨rfl, by simp [createStat]⟩

/-- Claim C3, counterexample: assigning a lineup whose two entries share
shirt 7 yields a reachable state with two active entries on that shirt --
the invariant is not enforced. -/
theorem C3_duplicate_shirt_reachable_cex :
    ¬ (countActive (assignLineup emptyStorage [insShirtA, insShirtB]) 1 7 ≤ 1) := by
  decide

/-- Claim C8, counterexample: a lineup whose two entries share shirt number 7
does not fail -- both roster entries are created. -/
theorem C8_duplicate_lineup_created_cex :
    insShirtA.number = insShirtB.number ∧
    (assignLineup emptyStorage [insShirtA, insShirtB]).gamePlayers.length = 2 := by
  decide

/-- Unfolding equation for `tickN` (kept as a lemma so that numeric literals
need not be destructed). -/
lemma tickN_succ (s : TimerState) (n : Nat) :
    tickN s (n + 1) = (tick (tickN s n)).1 := rfl

/-- While the clock is running with more than `k` seconds left, `k` ticks
just decrement the time by `k` (no expiry, no other change). -/
lemma tickN_running (s : TimerState) (h : s.isRunning = true) :
    ∀ k : Nat, (k : Int) < s.currentTime →
      tickN s k = { s with currentTime := s.currentTime - k } := by
  intro k
  induction k with
  | zero =>
      intro _
      simp [tickN]
  | succ k ih =>
      intro hk
      have hk' : (k : Int) < s.currentTime := by push_cast at hk ⊢; omega
      rw [tickN_succ, ih hk']
      have hpos : ¬ (max 0 (s.currentTime - (k : Int) - 1) ≤ 0) := by
        push_cast at hk; omega
      simp only [tick, h, if_true, hpos, if_false]
      have harith : max 0 (s.currentTime - (k : Int) - 1) =
          s.currentTime - ((k + 1 : Nat) : Int) := by
        push_cast at hk ⊢; omega
      simp [harith]

/-- Unfolding equation for `expiredOnTick`. -/
lemma expiredOnTick_def (s : TimerState) (i : Nat) :
    expiredOnTick s i = (tick (tickN s (i - 1))).2 := rfl

/-- The 40-minute-halves clock at the start of period 1, running. -/
def clock2400 : TimerState := ⟨true, 1, 2400, 40, 2⟩

/-- Claim C4: a tick changes nothing when the clock is stopped; when running
it decrements `currentTime` by 1 floored at 0, never touches the period, and
raises the "period expired" event (stopping the clock) exactly when the time
reaches 0; from a full 2400-second period, 2400 ticks end with 0 seconds
left, the clock stopped, the period unchanged, and the expiry event raised
exactly once -- on the 2400th tick. -/
theorem C4_tick_behavior :
    (∀ s : TimerState, s.isRunning = false → tick s = (s, false)) ∧
    (∀ s : TimerState, s.isRunning = true →
      (tick s).1.currentTime = max 0 (s.currentTime - 1) ∧
      (tick s).1.currentHalf = s.currentHalf ∧
      ((tick s).2 = true ↔ max 0 (s.currentTime - 1) ≤ 0) ∧
      ((tick s).2 = true → (tick s).1.isRunning = false)) ∧
    (tickN clock2400 2400).currentTime = 0 ∧
    (tickN clock2400 2400).isRunning = false ∧
    (tickN clock2400 2400).currentHalf = 1 ∧
    (∀ i : Nat, 1 ≤ i → i ≤ 2400 →
      (expiredOnTick clock2400 i = true ↔ i = 2400)) := by
  have hrun : clock2400.isRunning = true := rfl
  have h2399 : tickN clock2400 2399 = ⟨true, 1, 1, 40, 2⟩ := by
    have h := tickN_running clock2400 hrun 2399 (by norm_num [clock2400])
    rw [h]
    rfl
  have hfinal : tickN clock2400 2400 = ⟨false, 1, 0, 40, 2⟩ := by
    rw [show (2400 : Nat) = 2399 + 1 from rfl, tickN_succ, h2399]
    rfl
  refine ⟨?_, ?_, ?_, ?_, ?_, ?_⟩
  · intro s h
    simp [tick, h]
  · intro s h
    by_cases hc : max 0 (s.currentTime - 1) ≤ 0 <;>
      simp [tick, h, hc]
  · rw [hfinal]
  · rw [hfinal]
  · rw [hfinal]
  · intro i h1 h2
    by_cases hi : i = 2400
    · subst hi
      have hsub : (2400 : Nat) - 1 = 2399 := by norm_num
      rw [expiredOnTick_def, hsub, h2399]
      simp [tick]
    · have hilt : i < 2400 := lt_of_le_of_ne h2 hi
      rw [expiredOnTick_def]
      have hk : ((i - 1 : Nat) : Int) < clock2400.currentTime := by
        show ((i - 1 : Nat) : Int) < 2400
        omega
      have hstate : tickN clock2400 (i - 1) =
          ⟨true, 1, (2400 : Int) - ((i - 1 : Nat) : Int), 40, 2⟩ := by
        rw [tickN_running clock2400 hrun (i - 1) hk]
        rfl
      rw [hstate]
      have hpos : ¬ (max 0 ((2400 : Int) - ((i - 1 : Nat) : Int) - 1) ≤ 0) := by
        omega
      simp [tick, hpos, hi]

/-- Claim C4 witness: a stopped clock is unchanged by a tick. -/
theorem C4_tick_witness :
    tick ⟨false, 1, 10, 40, 2⟩ = (⟨false, 1, 10, 40, 2⟩, false) :=
  C4_tick_behavior.1 ⟨false, 1, 10, 40, 2⟩ rfl

/-- Folding the aggregation step over an event list, starting from any table,
adds exactly the per-cell sums of the list. -/
lemma foldl_bumpStat (l : List Stat) :
    ∀ (gs : Nat → String → Int) (p : Nat) (t : String),
      (l.foldl (fun acc st => bumpStat acc st.playerId st.statType st.value)
        gs) p t = gs p t + specPlayerTotals l p t := by
  induction l with
  | nil =>
      intro gs p t
      simp [specPlayerTotals]
  | cons hd tl ih =>
      intro gs p t
      rw [List.foldl_cons, ih]
      by_cases hp : hd.playerId = p <;> by_cases ht : hd.statType = t <;>
        simp [bumpStat, specPlayerTotals, List.filter_cons, hp, ht] <;> omega

/-- Claim C6: the incrementally maintained totals agree with the pure
recomputation.  First conjunct: recomputing after appending one event equals
applying the incremental `bumpStat` update of `recordStat` to the previous
table.  Second conjunct: the fold-based table equals the specification's
filter-and-sum `playerTotals`, on every cell -- so any two recomputations
(with no intervening record) are identical. -/
theorem C6_totals_agree :
    (∀ (l : List Stat) (e : Stat) (p : Nat) (t : String),
      loadGameStats (l ++ [e]) p t =
        bumpStat (loadGameStats l) e.playerId e.statType e.value p t) ∧
    (∀ (l : List Stat) (p : Nat) (t : String),
      loadGameStats l p t = specPlayerTotals l p t) := by
  constructor
  · intro l e p t
    simp [loadGameStats, List.foldl_append]
  · intro l p t
    have h := foldl_bumpStat l (fun _ _ => 0) p t
    simpa [loadGameStats] using h

/-- Assign consecutive server ids to a list of lineup inserts, starting at
`n` -- the shape `assignLineup` leaves in the store. -/
def withIds : Nat → List InsertGamePlayer → List GamePlayer
  | _, [] => []
  | n, e :: es => mkGamePlayer n e :: withIds (n + 1) es

/-- Forget the server id of a stored roster entry. -/
def stripId (gp : GamePlayer) : InsertGamePlayer :=
  ⟨gp.gameId, gp.playerId, gp.number, gp.position, gp.isStarter,
    gp.startTime, gp.endTime⟩

/-- The lineup payload the client builds per assigned position
(part_005 `savePlayersMutation`): `isStarter` is `positionNumber <= 15` and
no start or end time is sent. -/
def mkAssignment (gameId : Nat) (positionNumber : Int) (playerId : Nat)
    (positionLabel : String) : InsertGamePlayer :=
  ⟨gameId, playerId, positionNumber, positionLabel,
    decide (positionNumber ≤ 15), none, none⟩

/-- Unfolding equation for `assignLineup`. -/
lemma assignLineup_cons (s : Storage) (e : InsertGamePlayer)
    (es : List InsertGamePlayer) :
    assignLineup s (e :: es) = assignLineup (createGamePlayer s e).2 es := rfl

/-- Lemma: `assignLineup` appends one stored entry per insert, in order, with
consecutive ids. -/
lemma assignLineup_gamePlayers (es : List InsertGamePlayer) :
    ∀ s : Storage,
      (assignLineup s es).gamePlayers =
        s.gamePlayers ++ withIds s.currentGamePlayerId es := by
  induction es with
  | nil =>
      intro s
      simp [assignLineup, withIds]
  | cons e es ih =>
      intro s
      rw [assignLineup_cons, ih]
      simp [createGamePlayer, withIds, List.append_assoc]

/-- Stored lineup entries carry exactly the supplied fields. -/
lemma withIds_map_stripId (es : List InsertGamePlayer) :
    ∀ n : Nat, (withIds n es).map stripId = es := by
  induction es with
  | nil =>
      intro n
      simp [withIds]
  | cons e es ih =>
      intro n
      simp [withIds, ih, stripId, mkGamePlayer]

/-- Claim C8 (amended): lineup assignment -- one `createGamePlayer` per
entry -- never fails and performs no duplicate-shirt check: it appends one
roster entry per supplied entry, duplicates included, each carrying exactly
the supplied fields; the client's payload has `isStarter = (shirt ≤ 15)` and
no `startTime` (not the spec's `isStarter = true`, `enteredAtSeconds = 0`). -/
theorem C8_lineup_creates_all_entries :
    (∀ (s : Storage) (es : List InsertGamePlayer),
      (assignLineup s es).gamePlayers =
        s.gamePlayers ++ withIds s.currentGamePlayerId es) ∧
    (∀ (n : Nat) (es : List InsertGamePlayer),
      (withIds n es).map stripId = es) ∧
    (∀ (gameId : Nat) (positionNumber : Int) (playerId : Nat)
       (positionLabel : String),
      (mkAssignment gameId positionNumber playerId positionLabel).isStarter =
        decide (positionNumber ≤ 15) ∧
      (mkAssignment gameId positionNumber playerId positionLabel).startTime =
        none) :=
  ⟨fun s es => assignLineup_gamePlayers es s,
   fun n es => withIds_map_stripId es n,
   fun _ _ _ _ => ⟨rfl, rfl⟩⟩

/-- Claim C10: `completeGame` of a missing id returns `undefined` and changes
nothing; of a stored game it returns the updated game -- scores and
`isCompleted` set, `playerOfMatchId` nulled when omitted or `0`,
`playerOfMatchComment` nulled when omitted or empty, every other game field
kept -- and replaces only that game in the store, leaving roster entries,
stats and counters untouched. -/
theorem C10_completeGame_correct :
    ∀ (s : Storage) (id : Nat) (hs aws : Int) (pom : Option Nat)
      (pomc : Option String),
      (s.games.find? (fun g => g.id == id) = none →
        completeGame s id hs aws pom pomc = (none, s)) ∧
      (∀ g, s.games.find? (fun g => g.id == id) = some g →
        ∃ g', (completeGame s id hs aws pom pomc).1 = some g' ∧
          g'.homeScore = hs ∧ g'.awayScore = aws ∧ g'.isCompleted = true ∧
          g'.playerOfMatchId =
            (if pom = none ∨ pom = some 0 then none else pom) ∧
          g'.playerOfMatchComment =
            (if pomc = none ∨ pomc = some "" then none else pomc) ∧
          g'.id = g.id ∧ g'.teamId = g.teamId ∧ g'.fixtureId = g.fixtureId ∧
          g'.opponent = g.opponent ∧ g'.date = g.date ∧
          g'.location = g.location ∧ g'.halfLength = g.halfLength ∧
          g'.numberOfHalves = g.numberOfHalves ∧
          (completeGame s id hs aws pom pomc).2 =
            { s with
                games := s.games.map (fun x => if x.id == id then g' else x) }) := by
  intro s id hs aws pom pomc
  constructor
  · intro h
    simp [completeGame, h]
  · intro g hg
    simp only [completeGame, hg]
    refine ⟨_, rfl, rfl, rfl, rfl, ?_, ?_, rfl, rfl, rfl, rfl, rfl, rfl, rfl,
      rfl, rfl⟩
    · cases pom with
      | none => simp
      | some v =>
          by_cases hv : v = 0 <;> simp [hv]
    · cases pomc with
      | none => simp
      | some c =>
          by_cases hc : c = "" <;> simp [hc]

/-- Claim C10 witness: completing a game that does not exist is a no-op
returning `undefined`. -/
theorem C10_completeGame_witness :
    completeGame emptyStorage 1 21 14 none none = (none, emptyStorage) :=
  (C10_completeGame_correct emptyStorage 1 21 14 none none).1 rfl

/-- Fixture: a Try event of player 10 in game 1. -/
def statTryA : Stat := ⟨1, 1, 10, "Try", 1, 120, 1⟩

/-- Fixture: a Try event of player 11 in game 1. -/
def statTryB : Stat := ⟨2, 1, 11, "Try", 1, 600, 1⟩

/-- Fixture: a storage whose ledger for game 1 is exactly two Try events. -/
def sTwoTries : Storage := ⟨[gFix], [], [statTryA, statTryB], 2, 1, 3⟩

/-- Claim C7, counterexample: the ledger of game 1 holds exactly two Try
events and no other scoring events, so the spec formula gives 10 -- but the
repository derives no score from events: completing the game stores the
caller-supplied 3, not 10. -/
theorem C7_score_not_derived_cex :
    specDerivedScore (getGameStats sTwoTries 1) = 10 ∧
    (completeGame sTwoTries 1 3 0 none none).1 =
      some { gFix with homeScore := 3, awayScore := 0, isCompleted := true } ∧
    ((3 : Int) ≠ 10) := by
  decide

/-- Claim C7 (amended): the stored match score is independent of the event
ledger -- `completeGame` records exactly the scores its caller passes and
reads no stats -- while the spec formula applied to an all-Try ledger yields
five points per event (so two Trys give 10 only if the caller also enters
10). -/
theorem C7_completeGame_score_independent :
    (∀ (s : Storage) (id : Nat) (hs aws : Int) (pom : Option Nat)
       (pomc : Option String) (g' : Game),
      (completeGame s id hs aws pom pomc).1 = some g' →
        g'.homeScore = hs ∧ g'.awayScore = aws ∧
        (completeGame s id hs aws pom pomc).2.stats = s.stats) ∧
    (∀ l : List Stat, (∀ e ∈ l, e.statType = "Try") →
      specDerivedScore l = 5 * (l.length : Int)) := by
  constructor
  · intro s id hs aws pom pomc g' h
    cases hfind : s.games.find? (fun g => g.id == id) with
    | none => simp [completeGame, hfind] at h
    | some g =>
        simp only [completeGame, hfind] at h ⊢
        injection h with h'
        subst h'
        simp
  · intro l hl
    have hTry : l.filter (fun s => s.statType == "Try") = l :=
      List.filter_eq_self.mpr (fun a ha => by simp [hl a ha])
    have hConv : l.filter (fun s => s.statType == "Conversion") = [] :=
      List.filter_eq_nil_iff.mpr (fun a ha => by simp [hl a ha])
    have hPG : l.filter (fun s => s.statType == "Penalty Goal") = [] :=
      List.filter_eq_nil_iff.mpr (fun a ha => by simp [hl a ha])
    have hFG : l.filter (fun s => s.statType == "Field Goal") = [] :=
      List.filter_eq_nil_iff.mpr (fun a ha => by simp [hl a ha])
    simp [specDerivedScore, hTry, hConv, hPG, hFG]

/-- Claim C7 witness: the spec formula on the concrete two-Try ledger. -/
theorem C7_score_witness :
    specDerivedScore [statTryA, statTryB] =
      5 * (([statTryA, statTryB] : List Stat).length : Int) :=
  C7_completeGame_score_independent.2 [statTryA, statTryB] (by decide)

/-- Counting a filtered list after `setEndTimeFirst`: exchanging the found
record `r` for its end-timed copy exchanges their contributions. -/
lemma length_filter_setEndTimeFirst (p q : GamePlayer → Bool) (t : Int) :
    ∀ (l : List GamePlayer) (r : GamePlayer), l.find? p = some r →
      ((setEndTimeFirst p t l).filter q).length + (if q r then 1 else 0) =
        (l.filter q).length +
          (if q { r with endTime := some t } then 1 else 0) := by
  intro l
  induction l with
  | nil =>
      intro r h
      simp at h
  | cons hd tl ih =>
      intro r h
      by_cases hp : p hd
      · have hr : r = hd := by
          rw [List.find?_cons_of_pos _ hp] at h
          exact (Option.some.inj h).symm
        subst hr
        simp only [setEndTimeFirst, hp, if_true, List.filter_cons]
        by_cases h1 : q { r with endTime := some t } <;> by_cases h2 : q r <;>
          simp [h1, h2] <;> omega
      · rw [List.find?_cons_of_neg _ hp] at h
        have hih := ih r h
        simp only [setEndTimeFirst, hp, if_false, List.filter_cons]
        by_cases h2 : q hd <;> simp [h2] <;> omega

/-- Composing the three filters of `countActive` into one predicate. -/
lemma tripleFilter (l : List GamePlayer) (g : Nat) (n : Int) :
    (((l.filter (fun gp => gp.gameId == g)).filter
        (fun gp => jsFalsy gp.endTime)).filter
        (fun gp => gp.number == n)).length =
      (l.filter (fun gp =>
        gp.gameId == g && jsFalsy gp.endTime && gp.number == n)).length := by
  induction l with
  | nil => rfl
  | cons hd tl ih =>
      cases h1 : (hd.gameId == g) <;> cases h2 : jsFalsy hd.endTime <;>
        cases h3 : (hd.number == n) <;>
        simp only [List.filter_cons, h1, h2, h3, Bool.false_and,
          Bool.true_and, Bool.and_false, Bool.and_true, Bool.false_eq_true,
          eq_self_iff_true, if_false, if_true, List.length_cons] <;>
        omega

/-- Lemma: `countActive` as a single filtered length. -/
lemma countActive_eq (s : Storage) (g : Nat) (n : Int) :
    countActive s g n =
      (s.gamePlayers.filter (fun gp =>
        gp.gameId == g && jsFalsy gp.endTime && gp.number == n)).length :=
  tripleFilter s.gamePlayers g n

/-- Among lineup entries with pairwise-distinct shirt numbers, at most one
stored entry matches any one (game, shirt, active) predicate. -/
lemma withIds_filter_length_le_one :
    ∀ (es : List InsertGamePlayer) (m : Nat) (g' : Nat) (n' : Int),
      es.Pairwise (fun a b => a.number ≠ b.number) →
      ((withIds m es).filter (fun gp =>
        gp.gameId == g' && jsFalsy gp.endTime && gp.number == n')).length ≤ 1 := by
  intro es
  induction es with
  | nil =>
      intro m g' n' _
      simp [withIds]
  | cons e es ih =>
      intro m g' n' hpw
      rw [List.pairwise_cons] at hpw
      obtain ⟨hhd, htl⟩ := hpw
      simp only [withIds, List.filter_cons]
      by_cases hq : ((mkGamePlayer m e).gameId == g' &&
          jsFalsy (mkGamePlayer m e).endTime &&
          (mkGamePlayer m e).number == n') = true
      · have hnum : e.number = n' := by
          simp only [mkGamePlayer, Bool.and_eq_true, beq_iff_eq] at hq
          exact hq.2
        have htail : (withIds (m + 1) es).filter (fun gp =>
            gp.gameId == g' && jsFalsy gp.endTime && gp.number == n') = [] := by
          rw [List.filter_eq_nil_iff]
          intro gp hgp
          have hmem : stripId gp ∈ es := by
            have h1 := List.mem_map_of_mem stripId hgp
            rwa [withIds_map_stripId] at h1
          have hne := hhd (stripId gp) hmem
          simp only [stripId] at hne
          simp only [Bool.and_eq_true, beq_iff_eq, not_and]
          intro _ h3
          exact hne (by rw [hnum, h3])
        simp [hq, htail]
      · simp only [hq, Bool.false_eq_true, if_false]
        exact ih (m + 1) g' n' htl

/-- Claim C3 (amended): the code does not enforce the shirt invariant (see
the counterexample), but well-behaved call sequences preserve it: a
substitution at a nonzero time preserves it from any state, and assigning a
lineup of pairwise-distinct shirt numbers (all entries of one game, no end
time) to a game with no prior roster entries preserves it. -/
theorem C3_shirt_invariant_conditional :
    (∀ (s : Storage) (g out inp : Nat) (t : Int), t ≠ 0 →
      ShirtInvariant s → ShirtInvariant (substitutePlayer s g out inp t).2) ∧
    (∀ (s : Storage) (g : Nat) (es : List InsertGamePlayer),
      ShirtInvariant s →
      (∀ gp ∈ s.gamePlayers, gp.gameId ≠ g) →
      (∀ e ∈ es, e.gameId = g ∧ e.endTime = none) →
      es.Pairwise (fun a b => a.number ≠ b.number) →
      ShirtInvariant (assignLineup s es)) := by
  constructor
  · intro s g out inp t ht hinv g' n'
    rw [countActive_eq]
    cases hfind : s.gamePlayers.find? (fun gp =>
        gp.gameId == g && gp.playerId == out && jsFalsy gp.endTime) with
    | none =>
        simp only [substitutePlayer, hfind]
        rw [← countActive_eq]
        exact hinv g' n'
    | some r =>
        simp only [substitutePlayer, hfind, createGamePlayer, mkGamePlayer]
        rw [List.filter_append, List.length_append]
        have hpr := List.find?_some hfind
        simp only [Bool.and_eq_true, beq_iff_eq] at hpr
        obtain ⟨⟨hr1, _⟩, hr2⟩ := hpr
        have hbase := hinv g' n'
        rw [countActive_eq] at hbase
        have hjst : jsFalsy (some t) = false := by
          simp [jsFalsy, beq_eq_false_iff_ne]
          exact ht
        have hjn : jsFalsy none = true := rfl
        have hlem := length_filter_setEndTimeFirst
          (fun gp => gp.gameId == g && gp.playerId == out && jsFalsy gp.endTime)
          (fun gp => gp.gameId == g' && jsFalsy gp.endTime && gp.number == n')
          t s.gamePlayers r hfind
        simp only [hjst, hjn, hr1, hr2, Bool.and_false, Bool.false_and,
          Bool.and_true, Bool.true_and, Bool.false_eq_true, if_false,
          add_zero] at hlem
        simp only [List.filter_cons, List.filter_nil, hjn, Bool.and_true,
          hr1, hr2]
        by_cases hc : ((g == g') && (r.number == n')) = true
        · simp only [hc, if_true, List.length_cons, List.length_nil] at hlem ⊢
          omega
        · simp only [hc, Bool.false_eq_true, if_false, List.length_nil] at hlem ⊢
          omega
  · intro s g es hinv hfresh hfields hdist g' n'
    rw [countActive_eq, assignLineup_gamePlayers, List.filter_append,
      List.length_append]
    by_cases hgg : g' = g
    · subst hgg
      have hbase0 : s.gamePlayers.filter (fun gp =>
          gp.gameId == g' && jsFalsy gp.endTime && gp.number == n') = [] := by
        rw [List.filter_eq_nil_iff]
        intro gp hgp
        have hne := hfresh gp hgp
        simp only [Bool.and_eq_true, beq_iff_eq, not_and]
        intro h1
        exact absurd h1.1 hne
      rw [hbase0]
      simpa using withIds_filter_length_le_one es s.currentGamePlayerId g' n' hdist
    · have hwiz : (withIds s.currentGamePlayerId es).filter (fun gp =>
          gp.gameId == g' && jsFalsy gp.endTime && gp.number == n') = [] := by
        rw [List.filter_eq_nil_iff]
        intro gp hgp
        have hmem : stripId gp ∈ es := by
          have h1 := List.mem_map_of_mem stripId hgp
          rwa [withIds_map_stripId] at h1
        have hg := (hfields (stripId gp) hmem).1
        simp only [stripId] at hg
        simp only [Bool.and_eq_true, beq_iff_eq, not_and]
        intro h1
        exact absurd (hg ▸ h1.1 : g = g') (fun hx => hgg hx.symm)
      rw [hwiz]
      have hb := hinv g' n'
      rw [countActive_eq] at hb
      simpa using hb

/-- Claim C3 witness: the preservation theorem applied to the empty store
with a nonzero substitution time. -/
theorem C3_shirt_invariant_witness :
    ShirtInvariant (substitutePlayer emptyStorage 1 10 20 5).2 :=
  C3_shirt_invariant_conditional.1 emptyStorage 1 10 20 5 (by decide)
    (fun g n => by simp [countActive, activePlayers, getGamePlayers, emptyStorage])
